import Mathlib

/-!
# ar_kinect_bluetooth: marker resolution, pose telemetry and device selection

A shallow embedding of `ar_kinect_bluetooth.cpp` (namespace `ar_pose`).

* Floating-point quantities (`double`, `float`) are values of an arbitrary linearly
  ordered field `K` with a floor function. Arithmetic on them is exact, except where the
  rounding decides an integer the program emits: the products converted to `int` at lines
  365-367 are rounded to the nearest double (`roundDouble`).
* `std::string` is a list of characters.
* Machine `int` is `Int`; conversions that can leave the 32-bit range are written out.
* Library calls whose code is outside this file (the marker detector, the point cloud
  access, the SVD solver, the tf listener, `sqrt`, `tf::getYaw`) are fields of `Env`.
  They are taken to return normally; the only failures modelled are the ones the source
  handles: a negative detector result, a thrown `tf::TransformException`, and a missing
  catalog (`ROS_BREAK`).
-/

namespace ar_pose

/-! ## Data model -/

/-- A `std::string` / C string. -/
abbrev CString := List Char

/-- Largest value of a machine `int`. -/
def INT_MAX : Int := 2147483647

/-- Conversion of an unsigned 32-bit quantity to `int`: the value modulo 2^32 taken in
the signed range. -/
def toInt32 (n : Nat) : Int :=
  ((n : Int) + 2147483648) % 4294967296 - 2147483648

/-- ARToolkit `ARParam`: image size, projection matrix and distortion factors. -/
structure ARParam (K : Type) where
  xsize : Int
  ysize : Int
  mat : List (List K)
  dist_factor : K × K × K × K

/-- ARToolkit `ARMarkerInfo`: one detection in the current frame (the fields read by the
callback). `vertex` holds the four corner pixel coordinates. -/
structure ARMarkerInfo (K : Type) where
  id : Int
  dir : Int
  cf : K
  vertex : List (K × K)

/-- Catalog entry `ar_object::ObjectData_T`. -/
structure ObjectData_T (K : Type) where
  name : CString
  id : Int
  visible : Int
  marker_width : K

/-- The parts of `sensor_msgs::PointCloud2` the callback reads. `data` stands for the
point samples. -/
structure PointCloud2 where
  width : Nat
  height : Nat
  frame_id : CString
  stamp : Nat
  data : List Nat

/-- A 3-D point (`pcl::PointXYZRGB` without colour). -/
structure Point (K : Type) where
  x : K
  y : K
  z : K

/-- A quaternion message (`geometry_msgs::Quaternion`). -/
structure Quaternion (K : Type) where
  x : K
  y : K
  z : K
  w : K

/-- What the callback reads from the `tf::Transform` of a marker: `getOrigin()`,
`getRotation().getAxis()` and `getRotation().getW()`. -/
structure Transform (K : Type) where
  origin : Point K
  rotationAxis : Point K
  rotationW : K

/-- Message `geometry_msgs::PoseStamped`. -/
structure PoseStamped (K : Type) where
  frame_id : CString
  stamp : Nat
  position : Point K
  orientation : Quaternion K

/-- Message `ar_pose::ARMarker` (one element of the published marker list). -/
structure ARMarker (K : Type) where
  frame_id : CString
  stamp : Nat
  id : Int
  position : Point K
  orientation : Quaternion K
  confidence : K

/-- Observable effects of one callback run, in the order they happen. -/
inductive Event (K : Type) where
  | rosError : Nat → Nat → Event K
  | arDetectMarkerLite : PointCloud2 → Event K
  | argCleanup : Event K
  | publishMarkers : List (ARMarker K) → Event K
  | sendMessage : Int → CString → Event K
  | rosWarn : Event K
  | sendTransform : CString → Event K
  | publishVisual : Int → Nat → Event K

/-- Node parameters and the library calls the callback makes. A detector result `none`
is a negative return value; a `transformPose` result `none` is a thrown
`tf::TransformException`; `read_ObjData` is `none` when the catalog cannot be loaded. -/
structure Env (K : Type) where
  publishBluetooth_ : Bool
  publishTf_ : Bool
  publishVisualMarkers_ : Bool
  publishArPoseMarkers_ : Bool
  threshold_ : Int
  read_ObjData : Option (List (ObjectData_T K))
  arDetectMarkerLite : PointCloud2 → Int → Option (List (ARMarkerInfo K))
  cloudAt : PointCloud2 → Int → Int → Point K
  estimateRigidTransformationSVD : List (Point K) → List (Point K) → Transform K
  transformPose : PoseStamped K → Option (PoseStamped K)
  getYaw : Quaternion K → K
  sqrt : K → K
  M_PI : K

/-- Members of `ARPublisher` that the callback reads and writes. -/
structure ARPublisher (K : Type) where
  cam_param_ : ARParam K
  configured_ : Bool
  object : List (ObjectData_T K)
  arPoseMarkers_ : List (ARMarker K)

section Pipeline

variable {K : Type} [LinearOrderedField K] [FloorRing K]

/-! ## Pattern resolution (lines 270-281) -/

/-- Read of `marker_info[k]`. The callback only reads indexes the detector has filled in;
outside them the C read is undefined and the model returns a zero record. -/
def infoAt (marker_info : List (ARMarkerInfo K)) (k : Int) : ARMarkerInfo K :=
  match marker_info[k.toNat]? with
  | some m => m
  | none => ⟨0, 0, 0, []⟩

/-- Body of the inner loop for index `j = jm.1`, where `jm.2` is `marker_info[j]`. -/
def matchStep (id : Int) (marker_info : List (ARMarkerInfo K)) (k : Int)
    (jm : Nat × ARMarkerInfo K) : Int :=
  if id = jm.2.id then
    if k = -1 then (jm.1 : Int)
    else if (infoAt marker_info k).cf < jm.2.cf then (jm.1 : Int)
    else k
  else k

/-- The inner loop `for (j = 0; j < marker_num; j++)` started with `k = -1`: the index of
the detection chosen for catalog id `id`, or `-1`. -/
def bestMatch (id : Int) (marker_info : List (ARMarkerInfo K)) : Int :=
  marker_info.enum.foldl (matchStep id marker_info) (-1)

/-! ## Corner clouds (lines 288-302) -/

/-- The cast `(int)v` of a floating-point value: the fractional part is discarded. Outside
the range of `int` the C conversion is undefined; the model keeps the mathematical value. -/
def castInt (v : K) : Int :=
  if 0 ≤ v then ⌊v⌋ else ⌈v⌉

/-- The four vertex indexes `(4-d)%4, (5-d)%4, (6-d)%4, (7-d)%4`, with the remainder
of C (truncated division). -/
def cornerOrder (d : Int) : List Int :=
  [Int.tmod (4 - d) 4, Int.tmod (5 - d) 4, Int.tmod (6 - d) 4, Int.tmod (7 - d) 4]

/-- Read of `vertex[i]`; an index outside the array is undefined in C and reads as zero in
the model. -/
def vertexAt (vertex : List (K × K)) (i : Int) : K × K :=
  if 0 ≤ i then
    match vertex[i.toNat]? with
    | some v => v
    | none => (0, 0)
  else (0, 0)

/-- The cloud `marker` of observed corners. -/
def markerCloud (env : Env K) (msg : PointCloud2) (info : ARMarkerInfo K) : List (Point K) :=
  (cornerOrder info.dir).map fun i =>
    env.cloudAt msg (castInt (vertexAt info.vertex i).1) (castInt (vertexAt info.vertex i).2)

/-- The cloud `ideal`: a centred square of side `w` in the plane z = 0. -/
def idealCloud (w : K) : List (Point K) :=
  [⟨-w / 2, w / 2, 0⟩, ⟨w / 2, w / 2, 0⟩, ⟨w / 2, -w / 2, 0⟩, ⟨-w / 2, -w / 2, 0⟩]

/-! ## Marker list (lines 312-333) -/

/-- The `ARMarker` built for catalog entry `obj` (lines 314-328). The source stores
`marker_info->cf`, which is `marker_info[0].cf`. -/
def arPoseMarker (msg : PointCloud2) (obj : ObjectData_T K) (transform : Transform K)
    (marker_info : List (ARMarkerInfo K)) : ARMarker K :=
  { frame_id := msg.frame_id
    stamp := msg.stamp
    id := obj.id
    position := transform.origin
    orientation :=
      ⟨transform.rotationAxis.x, transform.rotationAxis.y, transform.rotationAxis.z,
        transform.rotationW⟩
    confidence := (infoAt marker_info 0).cf }

/-! ## World pose and telemetry (lines 336-382) -/

/-- The value `magnitude` of lines 349-352. -/
def magnitude (sqrt : K → K) (q : Quaternion K) : K :=
  sqrt (q.x ^ 2 + q.y ^ 2 + q.z ^ 2 + q.w ^ 2)

/-- Lines 353-356: each component divided by `magnitude`. -/
def normalizeQuaternion (sqrt : K → K) (q : Quaternion K) : Quaternion K :=
  ⟨q.x / magnitude sqrt q, q.y / magnitude sqrt q, q.z / magnitude sqrt q,
    q.w / magnitude sqrt q⟩

/-- The orientation written at lines 343-346, before normalization. -/
def rawOrientation (transform : Transform K) : Quaternion K :=
  ⟨transform.rotationAxis.x, transform.rotationAxis.y, transform.rotationAxis.z,
    transform.rotationW⟩

/-- The `pose` handed to `transformPose` (lines 338-356). -/
def bluetoothPose (sqrt : K → K) (msg : PointCloud2) (transform : Transform K) :
    PoseStamped K :=
  { frame_id := msg.frame_id
    stamp := msg.stamp
    position := transform.origin
    orientation := normalizeQuaternion sqrt (rawOrientation transform) }

/-- Rounding to the nearest integer, a tie going to the even neighbour. -/
def roundHalfEven (v : K) : Int :=
  if v - (⌊v⌋ : K) < 1 / 2 then ⌊v⌋
  else if 1 / 2 < v - (⌊v⌋ : K) then ⌊v⌋ + 1
  else if ⌊v⌋ % 2 = 0 then ⌊v⌋
  else ⌊v⌋ + 1

/-- Binary exponent of the last mantissa bit of the doubles around `q`: 52 below the binary
exponent of `q` (53 significant bits), and never below -1074 (subnormal range). -/
def ulpExponent (q : K) : Int :=
  max (Int.log 2 |q| - 52) (-1074)

/-- The value a double-precision operation returns when its exact result is `q`: the
nearest double, ties to even (IEEE 754 binary64, default rounding). Overflow to infinity
is not modelled; such a value is far outside the range of `int`. -/
def roundDouble (q : K) : K :=
  if q = 0 then 0
  else (roundHalfEven (q / (2 : K) ^ ulpExponent q) : K) * (2 : K) ^ ulpExponent q

/-- Lines 365-367: centimetres and degrees as `int`. Each product is a double-precision
product, and so is the quotient `180.0/M_PI`; the cast is applied to the rounded value. -/
def quantize (M_PI : K) (x y yaw : K) : Int × Int × Int :=
  (castInt (roundDouble (x * 100)), castInt (roundDouble (y * 100)),
    castInt (roundDouble (yaw * roundDouble (180 / M_PI))))

/-- Decimal digits of a natural number, most significant first; `fuel` bounds the number of
digits. -/
def natDigits : Nat → Nat → List Char
  | 0, _ => []
  | fuel + 1, n =>
    if n < 10 then [Nat.digitChar n] else natDigits fuel (n / 10) ++ [Nat.digitChar (n % 10)]

/-- The conversion `boost::lexical_cast<std::string>` of an `int`: decimal digits, with a
leading minus sign for a negative value. -/
def lexical_cast (n : Int) : CString :=
  if n < 0 then '-' :: natDigits (n.natAbs + 1) n.natAbs else natDigits (n.natAbs + 1) n.natAbs

/-- Lines 370-373: the text handed to `sendMessage`. -/
def bluetooth_msg (name : CString) (x y theta : Int) : CString :=
  name ++ [';'] ++ lexical_cast x ++ [';'] ++ lexical_cast y ++ [';'] ++ lexical_cast theta

/-- The `try` block of lines 358-380 for one marker. -/
def telemetry (env : Env K) (msg : PointCloud2) (obj : ObjectData_T K)
    (transform : Transform K) : List (Event K) :=
  match env.transformPose (bluetoothPose env.sqrt msg transform) with
  | some pose_transformed =>
    let q := quantize env.M_PI pose_transformed.position.x pose_transformed.position.y
      (env.getYaw pose_transformed.orientation)
    [Event.sendMessage 0 (bluetooth_msg obj.name q.1 q.2.1 q.2.2)]
  | none => [Event.rosWarn]

/-- Colour chosen by `switch (i)` at lines 410-429, as a code: 0 blue, 1 red, 2 green. -/
def colorOf (i : Nat) : Nat :=
  match i with
  | 0 => 0
  | 1 => 1
  | _ => 2

/-! ## The loop over the catalog (lines 268-435) -/

/-- One iteration of `for (i = 0; i < objectnum; i++)`: the updated catalog entry, the
updated `arPoseMarkers_.markers` and the effects. -/
def processObject (env : Env K) (msg : PointCloud2) (marker_info : List (ARMarkerInfo K))
    (i : Nat) (obj : ObjectData_T K) (markers : List (ARMarker K)) :
    ObjectData_T K × List (ARMarker K) × List (Event K) :=
  if bestMatch obj.id marker_info = -1 then
    ({ obj with visible := 0 }, markers, [])
  else
    let info := infoAt marker_info (bestMatch obj.id marker_info)
    let transform :=
      env.estimateRigidTransformationSVD (markerCloud env msg info) (idealCloud obj.marker_width)
    let markers1 :=
      if env.publishArPoseMarkers_ then
        markers ++ [arPoseMarker msg obj transform marker_info]
      else markers
    (obj, markers1,
      (if env.publishArPoseMarkers_ then [Event.publishMarkers markers1] else []) ++
      (if env.publishBluetooth_ then telemetry env msg obj transform else []) ++
      (if env.publishTf_ then [Event.sendTransform obj.name] else []) ++
      (if env.publishVisualMarkers_ then [Event.publishVisual obj.id (colorOf i)] else []))

/-- The loop over the catalog entries from index `i` on. -/
def checkPatterns (env : Env K) (msg : PointCloud2) (marker_info : List (ARMarkerInfo K)) :
    Nat → List (ObjectData_T K) → List (ARMarker K) →
    List (ObjectData_T K) × List (ARMarker K) × List (Event K)
  | _, [], markers => ([], markers, [])
  | i, obj :: rest, markers =>
    let r := processObject env msg marker_info i obj markers
    let rs := checkPatterns env msg marker_info (i + 1) rest r.2.1
    (r.1 :: rs.1, rs.2.1, r.2.2 ++ rs.2.2)

/-! ## The callback (lines 211-436) -/

/-- Lines 241-435: detection and the loop over the catalog. The conversion of the cloud to
an image (lines 241-255) writes none of the members modelled here. -/
def detectAndPublish (env : Env K) (s : ARPublisher K) (msg : PointCloud2) :
    ARPublisher K × List (Event K) :=
  match env.arDetectMarkerLite msg env.threshold_ with
  | none => (s, [Event.arDetectMarkerLite msg, Event.argCleanup])
  | some marker_info =>
    let r := checkPatterns env msg marker_info 0 s.object
      (if env.publishArPoseMarkers_ then [] else s.arPoseMarkers_)
    ({ s with object := r.1, arPoseMarkers_ := r.2.1 }, Event.arDetectMarkerLite msg :: r.2.2)

/-- The function `arInit`: loads the catalog and sets `configured_`. The result `none` is
`ROS_BREAK ()`, which ends the process. `arInitCparam` copies `cam_param_` into the
detector and leaves it unchanged. -/
def arInit (env : Env K) (s : ARPublisher K) : Option (ARPublisher K) :=
  match env.read_ObjData with
  | none => none
  | some objs => some { s with object := objs, configured_ := true }

/-- Lines 230-236: the camera parameters derived from the frame. The divisions are
divisions of unsigned integers. -/
def deriveCamParam (p : ARParam K) (msg : PointCloud2) : ARParam K :=
  { p with
    xsize := toInt32 msg.width
    ysize := toInt32 msg.height
    dist_factor := (((msg.width / 2 : Nat) : K), ((msg.height / 2 : Nat) : K), 0, 1) }

/-- The callback `getTransformationCallback`. The result `none` means the process was
ended by `ROS_BREAK ()`. -/
def getTransformationCallback (env : Env K) (s : ARPublisher K) (msg : PointCloud2) :
    Option (ARPublisher K × List (Event K)) :=
  if s.configured_ = false then
    if msg.width = 0 ∨ msg.height = 0 then
      some (s, [Event.rosError msg.width msg.height])
    else
      match arInit env { s with cam_param_ := deriveCamParam s.cam_param_ msg } with
      | none => none
      | some s1 => some (detectAndPublish env s1 msg)
  else some (detectAndPublish env s msg)

/-- The node fed with a sequence of frames; `none` when the process ended. -/
def runFrames (env : Env K) : ARPublisher K → List PointCloud2 → Option (ARPublisher K)
  | s, [] => some s
  | s, msg :: rest =>
    match getTransformationCallback env s msg with
    | none => none
    | some r => runFrames env r.1 rest

/-- The texts handed to `sendMessage`, in order. -/
def sentMessages : List (Event K) → List CString
  | [] => []
  | Event.sendMessage _ text :: rest => text :: sentMessages rest
  | _ :: rest => sentMessages rest

/-- Whether the marker detector was invoked. -/
def detectorInvoked : List (Event K) → Bool
  | [] => false
  | Event.arDetectMarkerLite _ :: _ => true
  | _ :: rest => detectorInvoked rest

end Pipeline

/-! ## Bluetooth device selection (lines 139-167) -/

/-- The condition of the `do ... while` at line 158. -/
def searchAgain (user_choice : Int) (found_devices : List (CString × CString)) : Bool :=
  decide (user_choice ≤ 0 ∨ user_choice > toInt32 found_devices.length)

/-- The `do ... while` loop of lines 139-158 over the successive rounds (discovery result
and parsed choice). It returns the state on leaving the loop, or `none` when the rounds
are used up and the loop is still scanning. -/
def selectDevice : List (List (CString × CString) × Int) →
    Option (List (CString × CString) × Int)
  | [] => none
  | (found_devices, user_choice) :: rest =>
    if searchAgain user_choice found_devices then selectDevice rest
    else some (found_devices, user_choice)

/-- The element `found_devices[user_choice-1]` used for the connect at line 161; `none`
when the index is outside the list. -/
def connectTarget (found_devices : List (CString × CString)) (user_choice : Int) :
    Option (CString × CString) :=
  if 0 ≤ user_choice - 1 then found_devices[(user_choice - 1).toNat]? else none


/-! ## Properties read off the callback -/

section Views

variable {K : Type} [LinearOrderedField K] [FloorRing K]

/-- State of the scan after the first `n` detections of `L`: either nothing matched and
`k = -1`, or `k` is the first index holding the largest confidence among the matches. -/
def ScanInv (id : Int) (L : List (ARMarkerInfo K)) (n : Nat) (k : Int) : Prop :=
  (k = -1 ∧ ∀ (i : Nat) (m : ARMarkerInfo K), i < n → L[i]? = some m → m.id ≠ id) ∨
  ∃ (j : Nat) (mj : ARMarkerInfo K), k = (j : Int) ∧ j < n ∧ L[j]? = some mj ∧ mj.id = id ∧
    ∀ (i : Nat) (mi : ARMarkerInfo K), i < n → L[i]? = some mi → mi.id = id →
      mi.cf ≤ mj.cf ∧ (i < j → mi.cf < mj.cf)

/-- The detections of a frame: the list reported by the detector, empty when the detector
fails. -/
def detectedMarkers (env : Env K) (msg : PointCloud2) : List (ARMarkerInfo K) :=
  match env.arDetectMarkerLite msg env.threshold_ with
  | some marker_info => marker_info
  | none => []

/-- The marker transform computed for catalog entry `obj` from the detection chosen for it
(lines 289-309). -/
def markerTransform (env : Env K) (msg : PointCloud2) (marker_info : List (ARMarkerInfo K))
    (obj : ObjectData_T K) : Transform K :=
  env.estimateRigidTransformationSVD
    (markerCloud env msg (infoAt marker_info (bestMatch obj.id marker_info)))
    (idealCloud obj.marker_width)

/-- The world-frame pose of catalog entry `obj`, when the lookup succeeds. -/
def worldPose (env : Env K) (msg : PointCloud2) (marker_info : List (ARMarkerInfo K))
    (obj : ObjectData_T K) : Option (PoseStamped K) :=
  env.transformPose (bluetoothPose env.sqrt msg (markerTransform env msg marker_info obj))

/-- The telemetry text of a world-frame pose for catalog entry `obj`. -/
def telemetryText (env : Env K) (obj : ObjectData_T K) (p : PoseStamped K) : CString :=
  bluetooth_msg obj.name
    (quantize env.M_PI p.position.x p.position.y (env.getYaw p.orientation)).1
    (quantize env.M_PI p.position.x p.position.y (env.getYaw p.orientation)).2.1
    (quantize env.M_PI p.position.x p.position.y (env.getYaw p.orientation)).2.2

/-- Telemetry expected for one catalog entry: a text when some detection carries its id
and its world-frame transform succeeds, nothing otherwise. -/
def expectedTelemetry (env : Env K) (msg : PointCloud2) (marker_info : List (ARMarkerInfo K))
    (obj : ObjectData_T K) : Option CString :=
  if marker_info.any (fun m => decide (m.id = obj.id)) then
    (worldPose env msg marker_info obj).map (telemetryText env obj)
  else none

end Views


section NumericViews

variable {K : Type} [LinearOrderedField K] [FloorRing K]

end NumericViews


/-! ## Reading a telemetry text back -/

/-- The fields of a text split at each `;`. -/
def splitFields (text : CString) : List CString :=
  text.splitOn ';'

/-- Value of a decimal digit character. -/
def digitValue (c : Char) : Option Nat :=
  if 48 ≤ c.toNat ∧ c.toNat ≤ 57 then some (c.toNat - 48) else none

/-- Base-10 value of a run of digits read after the value `acc`; `none` when a character is
not a digit. -/
def parseDigits : Nat → List Char → Option Nat
  | acc, [] => some acc
  | acc, c :: cs =>
    match digitValue c with
    | some d => parseDigits (acc * 10 + d) cs
    | none => none

/-- Base-10 integer parse: an optional minus sign followed by at least one digit. -/
def parseInt : CString → Option Int
  | [] => none
  | c :: cs =>
    if c = '-' then
      if cs = [] then none else (parseDigits 0 cs).map fun (n : Nat) => -(n : Int)
    else (parseDigits 0 (c :: cs)).map fun (n : Nat) => (n : Int)


/-! ## Fixtures over the rationals -/

/-- A square marker outline in pixel coordinates. -/
def exampleVertex : List (ℚ × ℚ) := [(10, 10), (20, 10), (20, 20), (10, 20)]

/-- Detections with ids 1, 1, 2 and confidences 0.3, 0.9, 0.5. -/
def exampleDetections : List (ARMarkerInfo ℚ) :=
  [⟨1, 0, 3 / 10, exampleVertex⟩, ⟨1, 2, 9 / 10, exampleVertex⟩, ⟨2, 0, 1 / 2, exampleVertex⟩]

/-- Two detections of id 1 with the same confidence 0.5. -/
def tieDetections : List (ARMarkerInfo ℚ) :=
  [⟨1, 0, 1 / 2, exampleVertex⟩, ⟨1, 0, 1 / 2, exampleVertex⟩]

/-- A catalog with the ids 1, 2 and 3. -/
def exampleCatalog : List (ObjectData_T ℚ) :=
  [⟨['A'], 1, 0, 2 / 25⟩, ⟨['B'], 2, 0, 2 / 25⟩, ⟨['C'], 3, 0, 2 / 25⟩]

/-- A 640 x 480 frame. -/
def exampleFrame : PointCloud2 := ⟨640, 480, ['/', 'c', 'a', 'm'], 7, []⟩

/-- A frame of width zero. -/
def emptyFrame : PointCloud2 := ⟨0, 480, ['/', 'c', 'a', 'm'], 8, []⟩

/-- A 320 x 240 frame. -/
def smallFrame : PointCloud2 := ⟨320, 240, ['/', 'c', 'a', 'm'], 9, []⟩

/-- The double nearest to pi, the value of `M_PI`. -/
def doublePi : ℚ := 884279719003555 / 281474976710656

/-- Stand-ins for the library calls: the detector reports `exampleDetections`, the solver
puts the marker at its first observed corner with rotation axis (0, 0, 1) and w = 0, the
world lookup succeeds and moves the pose by (1.036, -0.701), the yaw read from every
orientation is half of `M_PI`, and `sqrt` is exact at 1, the only argument that occurs. -/
def exampleEnv : Env ℚ where
  publishBluetooth_ := true
  publishTf_ := true
  publishVisualMarkers_ := true
  publishArPoseMarkers_ := true
  threshold_ := 100
  read_ObjData := some exampleCatalog
  arDetectMarkerLite := fun _ _ => some exampleDetections
  cloudAt := fun _ u v => ⟨(u : ℚ) / 100, (v : ℚ) / 100, 1⟩
  estimateRigidTransformationSVD := fun marker _ =>
    match marker with
    | [] => ⟨⟨0, 0, 0⟩, ⟨0, 0, 1⟩, 0⟩
    | p :: _ => ⟨p, ⟨0, 0, 1⟩, 0⟩
  transformPose := fun p =>
    some { p with position := ⟨p.position.x + 259 / 250, p.position.y - 701 / 1000,
      p.position.z⟩ }
  getYaw := fun _ => doublePi / 2
  sqrt := fun v => if v = 1 then 1 else v
  M_PI := doublePi

/-- The node before its first frame. -/
def freshNode : ARPublisher ℚ := ⟨⟨0, 0, [], (0, 0, 0, 0)⟩, false, [], []⟩

/-- The node after `exampleFrame` configured it. -/
def configuredNode : ARPublisher ℚ :=
  ⟨⟨640, 480, [], (320, 240, 0, 1)⟩, true, exampleCatalog, []⟩


/-- Two discovered devices (name, address). -/
def exampleDevices : List (CString × CString) :=
  [(['N', 'X', 'T'], ['0', '0', ':', '1', '6']), (['P', 'C'], ['0', '0', ':', '1', '7'])]

/-- Three rounds of the selection dialogue: an empty scan answered with 1, a scan of two
devices answered with 0 (search again), a scan of two devices answered with 2. -/
def exampleRounds : List (List (CString × CString) × Int) :=
  [([], 1), (exampleDevices, 0), (exampleDevices, 2)]


section ResolverProofs

variable {K : Type} [LinearOrderedField K]

/-- State of the scan after the first `n` detections of `L`: either nothing matched and
`k = -1`, or `k` is the first index holding the largest confidence among the matches. -/

theorem infoAt_natCast (L : List (ARMarkerInfo K)) (j : Nat) (m : ARMarkerInfo K)
    (h : L[j]? = some m) : infoAt L (j : Int) = m := by
  simp [infoAt, h]

theorem scanInv_step (id : Int) (L : List (ARMarkerInfo K)) (n : Nat) (k : Int)
    (m : ARMarkerInfo K) (hm : L[n]? = some m) (h : ScanInv id L n k) :
    ScanInv id L (n + 1) (matchStep id L k (n, m)) := by
  unfold matchStep
  rcases h with ⟨hk, hno⟩ | ⟨j, mj, hk, hjn, hj, hjid, hmax⟩
  · by_cases hid : id = m.id
    · rw [if_pos hid, if_pos hk]
      refine Or.inr ⟨n, m, rfl, Nat.lt_succ_self n, hm, hid.symm, ?_⟩
      intro i mi hi hmi hmid
      rcases Nat.lt_succ_iff_lt_or_eq.mp hi with hlt | heq
      · exact absurd hmid (hno i mi hlt hmi)
      · subst heq
        rw [hm] at hmi
        cases hmi
        exact ⟨le_refl _, fun h => absurd h (lt_irrefl _)⟩
    · rw [if_neg hid]
      refine Or.inl ⟨hk, ?_⟩
      intro i mi hi hmi
      rcases Nat.lt_succ_iff_lt_or_eq.mp hi with hlt | heq
      · exact hno i mi hlt hmi
      · subst heq
        rw [hm] at hmi
        cases hmi
        exact fun h => hid h.symm
  · have hkne : k ≠ -1 := by omega
    by_cases hid : id = m.id
    · rw [if_pos hid, if_neg hkne]
      rw [show infoAt L k = mj from hk ▸ infoAt_natCast L j mj hj]
      by_cases hlt : mj.cf < m.cf
      · rw [if_pos hlt]
        refine Or.inr ⟨n, m, rfl, Nat.lt_succ_self n, hm, hid.symm, ?_⟩
        intro i mi hi hmi hmid
        rcases Nat.lt_succ_iff_lt_or_eq.mp hi with hlt2 | heq
        · have := (hmax i mi hlt2 hmi hmid).1
          exact ⟨le_of_lt (lt_of_le_of_lt this hlt), fun _ => lt_of_le_of_lt this hlt⟩
        · subst heq
          rw [hm] at hmi
          cases hmi
          exact ⟨le_refl _, fun h => absurd h (lt_irrefl _)⟩
      · rw [if_neg hlt]
        refine Or.inr ⟨j, mj, hk, Nat.lt_succ_of_lt hjn, hj, hjid, ?_⟩
        intro i mi hi hmi hmid
        rcases Nat.lt_succ_iff_lt_or_eq.mp hi with hlt2 | heq
        · exact hmax i mi hlt2 hmi hmid
        · subst heq
          rw [hm] at hmi
          cases hmi
          exact ⟨not_lt.mp hlt, fun h => absurd h (by omega)⟩
    · rw [if_neg hid]
      refine Or.inr ⟨j, mj, hk, Nat.lt_succ_of_lt hjn, hj, hjid, ?_⟩
      intro i mi hi hmi hmid
      rcases Nat.lt_succ_iff_lt_or_eq.mp hi with hlt2 | heq
      · exact hmax i mi hlt2 hmi hmid
      · subst heq
        rw [hm] at hmi
        cases hmi
        exact absurd hmid.symm hid

theorem scanInv_foldl (id : Int) (L : List (ARMarkerInfo K)) :
    ∀ (rest : List (ARMarkerInfo K)) (n : Nat) (k : Int),
      (∀ i m, rest[i]? = some m → L[n + i]? = some m) → ScanInv id L n k →
      ScanInv id L (n + rest.length) ((rest.enumFrom n).foldl (matchStep id L) k) := by
  intro rest
  induction rest with
  | nil => intro n k _ h; simpa using h
  | cons m rest ih =>
    intro n k hL h
    simp only [List.enumFrom_cons, List.foldl_cons, List.length_cons]
    have hm : L[n]? = some m := by simpa using hL 0 m (by simp)
    have := ih (n + 1) (matchStep id L k (n, m))
      (fun i mi hi => by
        have := hL (i + 1) mi (by simpa using hi)
        rwa [show n + 1 + i = n + (i + 1) by omega])
      (scanInv_step id L n k m hm h)
    rwa [show n + 1 + rest.length = n + (rest.length + 1) by omega] at this

/-- The scan invariant holds for the whole list at the end of the inner loop. -/
theorem bestMatch_inv (id : Int) (L : List (ARMarkerInfo K)) :
    ScanInv id L L.length (bestMatch id L) := by
  have := scanInv_foldl id L L 0 (-1) (fun i m h => by simpa using h)
    (Or.inl ⟨rfl, fun i m hi => absurd hi (Nat.not_lt_zero i)⟩)
  simpa [bestMatch, List.enum] using this

theorem bestMatch_eq_neg_one_iff (id : Int) (L : List (ARMarkerInfo K)) :
    bestMatch id L = -1 ↔ ∀ m ∈ L, m.id ≠ id := by
  rcases bestMatch_inv id L with ⟨hk, hno⟩ | ⟨j, mj, hk, _, hj, hjid, _⟩
  · refine ⟨fun _ m hm => ?_, fun _ => hk⟩
    obtain ⟨i, hi, rfl⟩ := List.getElem_of_mem hm
    exact hno i _ hi (List.getElem?_eq_getElem hi)
  · refine ⟨fun h => by omega, fun h => ?_⟩
    exact absurd hjid (h mj (List.getElem?_mem hj))

theorem any_id_iff (id : Int) (L : List (ARMarkerInfo K)) :
    L.any (fun m => decide (m.id = id)) = true ↔ bestMatch id L ≠ -1 := by
  rw [Ne, bestMatch_eq_neg_one_iff]
  simp

end ResolverProofs


section TraceProofs

variable {K : Type}

theorem sentMessages_append (a b : List (Event K)) :
    sentMessages (a ++ b) = sentMessages a ++ sentMessages b := by
  induction a with
  | nil => rfl
  | cons e a ih => cases e <;> simp [sentMessages, ih]

end TraceProofs

section TelemetryProofs

variable {K : Type} [LinearOrderedField K] [FloorRing K]

theorem sentMessages_telemetry (env : Env K) (msg : PointCloud2) (obj : ObjectData_T K)
    (t : Transform K) :
    sentMessages (telemetry env msg obj t) =
      ((env.transformPose (bluetoothPose env.sqrt msg t)).map (telemetryText env obj)).toList := by
  unfold telemetry
  cases env.transformPose (bluetoothPose env.sqrt msg t) <;>
    simp [sentMessages, telemetryText]

theorem sentMessages_processObject (env : Env K) (hbt : env.publishBluetooth_ = true)
    (msg : PointCloud2) (L : List (ARMarkerInfo K)) (i : Nat) (obj : ObjectData_T K)
    (markers : List (ARMarker K)) :
    sentMessages (processObject env msg L i obj markers).2.2 =
      (expectedTelemetry env msg L obj).toList := by
  unfold processObject expectedTelemetry
  by_cases h : bestMatch obj.id L = -1
  · have hany : ¬ L.any (fun m => decide (m.id = obj.id)) = true := by
      rw [any_id_iff]; exact fun hn => hn h
    rw [if_pos h, if_neg hany]
    rfl
  · have hany : L.any (fun m => decide (m.id = obj.id)) = true := (any_id_iff _ _).mpr h
    rw [if_neg h, if_pos hany]
    simp only [hbt, if_true, sentMessages_append, sentMessages_telemetry]
    have h1 : ∀ (b : Bool) (e : Event K), (∀ c t, e ≠ Event.sendMessage c t) →
        sentMessages (if b = true then [e] else []) = [] := by
      intro b e he
      cases b
      · rfl
      · cases e <;> first | rfl | exact absurd rfl (he _ _)
    rw [h1 _ _ (by intro c t; exact Event.noConfusion), h1 _ _ (by intro c t; exact Event.noConfusion),
      h1 _ _ (by intro c t; exact Event.noConfusion)]
    simp [worldPose, markerTransform]

theorem sentMessages_checkPatterns (env : Env K) (hbt : env.publishBluetooth_ = true)
    (msg : PointCloud2) (L : List (ARMarkerInfo K)) :
    ∀ (objs : List (ObjectData_T K)) (i : Nat) (markers : List (ARMarker K)),
      sentMessages (checkPatterns env msg L i objs markers).2.2 =
        objs.filterMap (expectedTelemetry env msg L) := by
  intro objs
  induction objs with
  | nil => intro i markers; rfl
  | cons obj rest ih =>
    intro i markers
    simp only [checkPatterns, sentMessages_append, ih, sentMessages_processObject env hbt]
    cases h : expectedTelemetry env msg L obj <;> simp [List.filterMap_cons, h]

theorem sentMessages_detectAndPublish (env : Env K) (hbt : env.publishBluetooth_ = true)
    (s : ARPublisher K) (msg : PointCloud2) :
    sentMessages (detectAndPublish env s msg).2 =
      s.object.filterMap (expectedTelemetry env msg (detectedMarkers env msg)) := by
  unfold detectAndPublish detectedMarkers
  cases env.arDetectMarkerLite msg env.threshold_ with
  | none =>
    have hnone : ∀ objs : List (ObjectData_T K),
        objs.filterMap (expectedTelemetry env msg []) = [] := by
      intro objs
      induction objs with
      | nil => rfl
      | cons o rest ih => simp [List.filterMap_cons, expectedTelemetry, ih]
    simp [sentMessages, hnone]
  | some L => simp [sentMessages, sentMessages_checkPatterns env hbt]

end TelemetryProofs


section CallbackProofs

variable {K : Type} [LinearOrderedField K] [FloorRing K]

theorem detectAndPublish_cam_param (env : Env K) (s : ARPublisher K) (msg : PointCloud2) :
    (detectAndPublish env s msg).1.cam_param_ = s.cam_param_ ∧
      (detectAndPublish env s msg).1.configured_ = s.configured_ := by
  unfold detectAndPublish
  cases env.arDetectMarkerLite msg env.threshold_ <;> exact ⟨rfl, rfl⟩

theorem detectAndPublish_invokes (env : Env K) (s : ARPublisher K) (msg : PointCloud2) :
    detectorInvoked (detectAndPublish env s msg).2 = true := by
  unfold detectAndPublish
  cases env.arDetectMarkerLite msg env.threshold_ <;> rfl

theorem callback_configured (env : Env K) (s : ARPublisher K) (msg : PointCloud2)
    (h : s.configured_ = true) :
    getTransformationCallback env s msg = some (detectAndPublish env s msg) := by
  simp [getTransformationCallback, h]

theorem callback_first_frame (env : Env K) (s : ARPublisher K) (msg : PointCloud2)
    (objs : List (ObjectData_T K)) (hs : s.configured_ = false) (hw : msg.width ≠ 0)
    (hh : msg.height ≠ 0) (hobj : env.read_ObjData = some objs) :
    getTransformationCallback env s msg =
      some (detectAndPublish env
        { cam_param_ := deriveCamParam s.cam_param_ msg, configured_ := true, object := objs,
          arPoseMarkers_ := s.arPoseMarkers_ } msg) := by
  simp [getTransformationCallback, hs, hw, hh, arInit, hobj]

theorem runFrames_configured (env : Env K) (frames : List PointCloud2) :
    ∀ s : ARPublisher K, s.configured_ = true →
      ∃ s2, runFrames env s frames = some s2 ∧ s2.configured_ = true ∧
        s2.cam_param_ = s.cam_param_ := by
  induction frames with
  | nil => intro s h; exact ⟨s, rfl, h, rfl⟩
  | cons msg rest ih =>
    intro s h
    have hc := detectAndPublish_cam_param env s msg
    obtain ⟨s2, h2, h3, h4⟩ := ih (detectAndPublish env s msg).1 (hc.2.trans h)
    refine ⟨s2, ?_, h3, h4.trans hc.1⟩
    simp only [runFrames, callback_configured env s msg h]
    exact h2

end CallbackProofs


section CastProofs

variable {K : Type} [LinearOrderedField K] [FloorRing K]

theorem castInt_of_nonneg (v : K) (n : Int) (hv : 0 ≤ v) (h1 : (n : K) ≤ v)
    (h2 : v < (n : K) + 1) : castInt v = n := by
  unfold castInt
  rw [if_pos hv]
  exact Int.floor_eq_iff.mpr ⟨h1, h2⟩

theorem castInt_of_neg (v : K) (n : Int) (hv : v < 0) (h1 : (n : K) - 1 < v)
    (h2 : v ≤ (n : K)) : castInt v = n := by
  unfold castInt
  rw [if_neg (not_le.mpr hv)]
  exact Int.ceil_eq_iff.mpr ⟨h1, h2⟩

theorem castInt_intCast (n : Int) : castInt (n : K) = n := by
  unfold castInt
  split_ifs <;> simp

theorem roundHalfEven_of_near (v : K) (m : Int) (h1 : (m : K) - 1 / 2 < v)
    (h2 : v < (m : K) + 1 / 2) : roundHalfEven v = m := by
  unfold roundHalfEven
  by_cases hv : (m : K) ≤ v
  · have hf : ⌊v⌋ = m := Int.floor_eq_iff.mpr ⟨hv, by linarith⟩
    rw [hf, if_pos (by linarith)]
  · have hv2 : v < (m : K) := not_le.mp hv
    have hf : ⌊v⌋ = m - 1 := Int.floor_eq_iff.mpr ⟨by push_cast; linarith, by push_cast; linarith⟩
    rw [hf]
    have h3 : ¬ (v - ((m - 1 : Int) : K) < 1 / 2) := by push_cast; linarith
    have h4 : (1 : K) / 2 < v - ((m - 1 : Int) : K) := by push_cast; linarith
    rw [if_neg h3, if_pos h4]
    omega

theorem ulpExponent_eq (q a : K) (e : Int) (ha : |q| = a) (hlo : (2 : K) ^ (e + 52) ≤ a)
    (hhi : a < (2 : K) ^ (e + 53)) (hc : -1074 ≤ e) : ulpExponent q = e := by
  have hpos : 0 < |q| := by
    rw [ha]
    exact lt_of_lt_of_le (zpow_pos (by norm_num) _) hlo
  have h1 : e + 52 ≤ Int.log 2 |q| := by
    apply (Int.zpow_le_iff_le_log (by norm_num) hpos).mp
    rw [ha]
    exact_mod_cast hlo
  have h2 : Int.log 2 |q| < e + 53 := by
    apply (Int.lt_zpow_iff_log_lt (by norm_num) hpos).mp
    rw [ha]
    exact_mod_cast hhi
  unfold ulpExponent
  omega

theorem roundDouble_eq (q a : K) (e m : Int) (ha : |q| = a) (hlo : (2 : K) ^ (e + 52) ≤ a)
    (hhi : a < (2 : K) ^ (e + 53)) (hc : -1074 ≤ e) (h1 : (m : K) - 1 / 2 < q / (2 : K) ^ e)
    (h2 : q / (2 : K) ^ e < (m : K) + 1 / 2) : roundDouble q = (m : K) * (2 : K) ^ e := by
  have hq : q ≠ 0 := by
    intro h0
    rw [h0, abs_zero] at ha
    have : (0 : K) < (2 : K) ^ (e + 52) := zpow_pos (by norm_num) _
    linarith
  unfold roundDouble
  rw [if_neg hq, ulpExponent_eq q a e ha hlo hhi hc, roundHalfEven_of_near _ m h1 h2]

end CastProofs


theorem bestMatch_example_1 : bestMatch 1 exampleDetections = 1 := by
  simp [bestMatch, exampleDetections, matchStep, infoAt, List.enum, List.enumFrom]
  norm_num

theorem bestMatch_example_2 : bestMatch 2 exampleDetections = 2 := by
  simp [bestMatch, exampleDetections, matchStep, infoAt, List.enum, List.enumFrom]

theorem bestMatch_example_3 : bestMatch 3 exampleDetections = -1 := by
  simp [bestMatch, exampleDetections, matchStep, infoAt, List.enum, List.enumFrom]

theorem roundDouble_degrees_per_radian :
    roundDouble (180 / doublePi) = (8063664102031864 : Int) * (2 : ℚ) ^ (-47 : Int) := by
  apply roundDouble_eq (180 / doublePi) (180 / doublePi) (-47) 8063664102031864
    (abs_of_pos (by norm_num [doublePi])) <;> norm_num [doublePi]

theorem roundDouble_quarter_turn :
    roundDouble (doublePi / 2 * roundDouble (180 / doublePi)) = 90 := by
  rw [roundDouble_degrees_per_radian]
  have h := roundDouble_eq
    (doublePi / 2 * ((8063664102031864 : Int) * (2 : ℚ) ^ (-47 : Int)))
    (doublePi / 2 * ((8063664102031864 : Int) * (2 : ℚ) ^ (-47 : Int))) (-46) 6333186975989760
    (abs_of_pos (by norm_num [doublePi])) (by norm_num [doublePi]) (by norm_num [doublePi])
    (by norm_num) (by norm_num [doublePi]) (by norm_num [doublePi])
  rw [h]
  norm_num

theorem castInt_roundDouble_1236 :
    castInt (roundDouble (((1 : ℚ) / 5 + 259 / 250) * 100)) = 123 := by
  rw [roundDouble_eq (((1 : ℚ) / 5 + 259 / 250) * 100) (((1 : ℚ) / 5 + 259 / 250) * 100) (-46)
    8697576780359270 (abs_of_pos (by norm_num)) (by norm_num) (by norm_num) (by norm_num)
    (by norm_num) (by norm_num)]
  exact castInt_of_nonneg _ 123 (by norm_num) (by norm_num) (by norm_num)

theorem castInt_roundDouble_neg_0501 :
    castInt (roundDouble (((1 : ℚ) / 5 - 701 / 1000) * 100)) = -50 := by
  rw [roundDouble_eq (((1 : ℚ) / 5 - 701 / 1000) * 100) (-(((1 : ℚ) / 5 - 701 / 1000) * 100))
    (-47) (-7050948166601933) (abs_of_neg (by norm_num)) (by norm_num) (by norm_num)
    (by norm_num) (by norm_num) (by norm_num)]
  exact castInt_of_neg _ (-50) (by norm_num) (by norm_num) (by norm_num)

theorem castInt_roundDouble_1136 :
    castInt (roundDouble (((1 : ℚ) / 10 + 259 / 250) * 100)) = 113 := by
  rw [roundDouble_eq (((1 : ℚ) / 10 + 259 / 250) * 100) (((1 : ℚ) / 10 + 259 / 250) * 100) (-46)
    7993889338582630 (abs_of_pos (by norm_num)) (by norm_num) (by norm_num) (by norm_num)
    (by norm_num) (by norm_num)]
  exact castInt_of_nonneg _ 113 (by norm_num) (by norm_num) (by norm_num)

theorem castInt_roundDouble_neg_0601 :
    castInt (roundDouble (((1 : ℚ) / 10 - 701 / 1000) * 100)) = -60 := by
  rw [roundDouble_eq (((1 : ℚ) / 10 - 701 / 1000) * 100) (-(((1 : ℚ) / 10 - 701 / 1000) * 100))
    (-47) (-8458323050155213) (abs_of_neg (by norm_num)) (by norm_num) (by norm_num)
    (by norm_num) (by norm_num) (by norm_num)]
  exact castInt_of_neg _ (-60) (by norm_num) (by norm_num) (by norm_num)

theorem castInt_roundDouble_quarter_turn :
    castInt (roundDouble (doublePi / 2 * roundDouble (180 / doublePi))) = 90 := by
  rw [roundDouble_quarter_turn]
  exact castInt_of_nonneg (90 : ℚ) 90 (by norm_num) (by norm_num) (by norm_num)


section ResolverClaim

variable {K : Type} [LinearOrderedField K] [FloorRing K]

/-- C1. For a catalog entry `obj` and a list of detections `L`: the index chosen by the
inner loop is `-1` exactly when no detection carries the id of `obj`, and then the entry is
skipped for the frame (only `visible` is cleared, nothing is published or sent); otherwise it
is the smallest index whose detection carries that id with the largest confidence among
the detections with that id. -/
theorem C1_bestMatch_first_maximal (env : Env K) (msg : PointCloud2) (i : Nat)
    (markers : List (ARMarker K)) (obj : ObjectData_T K) (L : List (ARMarkerInfo K)) :
    (bestMatch obj.id L = -1 ↔ ∀ m ∈ L, m.id ≠ obj.id) ∧
    (bestMatch obj.id L = -1 →
      processObject env msg L i obj markers = ({ obj with visible := 0 }, markers, [])) ∧
    (bestMatch obj.id L ≠ -1 →
      ∃ (k : Nat) (mk : ARMarkerInfo K), bestMatch obj.id L = (k : Int) ∧ L[k]? = some mk ∧
        mk.id = obj.id ∧
        (∀ (j : Nat) (mj : ARMarkerInfo K), L[j]? = some mj → mj.id = obj.id →
          mj.cf ≤ mk.cf) ∧
        (∀ (j : Nat) (mj : ARMarkerInfo K), L[j]? = some mj → mj.id = obj.id →
          (∀ (t : Nat) (mt : ARMarkerInfo K), L[t]? = some mt → mt.id = obj.id →
            mt.cf ≤ mj.cf) → k ≤ j)) := by
  refine ⟨bestMatch_eq_neg_one_iff obj.id L, fun h => by simp [processObject, h], fun hne => ?_⟩
  rcases bestMatch_inv obj.id L with ⟨hk, _⟩ | ⟨k, mk, hk, hkn, hkL, hkid, hmax⟩
  · exact absurd hk hne
  · refine ⟨k, mk, hk, hkL, hkid, fun j mj hj hjid => ?_, fun j mj hj hjid hjmax => ?_⟩
    · have hjn : j < L.length := (List.getElem?_eq_some.mp hj).1
      exact (hmax j mj hjn hj hjid).1
    · by_contra hlt
      have hjn : j < L.length := (List.getElem?_eq_some.mp hj).1
      have h1 := (hmax j mj hjn hj hjid).2 (not_le.mp hlt)
      have h2 := hjmax k mk hkL hkid
      exact absurd h1 (not_lt.mpr h2)

end ResolverClaim

/-- C1, witness: on the detections (id 1, 0.3), (id 1, 0.9), (id 2, 0.5) the catalog ids 1,
2, 3 select the indexes 1, 2 and none; two detections of id 1 with equal confidence select
index 0; the catalog entry `C` of id 3 is skipped. -/
theorem C1_bestMatch_first_maximal_witness :
    bestMatch 1 exampleDetections = 1 ∧ bestMatch 2 exampleDetections = 2 ∧
    bestMatch 3 exampleDetections = -1 ∧ bestMatch 1 tieDetections = 0 ∧
    processObject exampleEnv exampleFrame exampleDetections 2 ⟨['C'], 3, 0, 2 / 25⟩ [] =
      (⟨['C'], 3, 0, 2 / 25⟩, [], []) :=
  ⟨bestMatch_example_1, bestMatch_example_2, bestMatch_example_3, by
    simp [bestMatch, tieDetections, matchStep, infoAt, List.enum, List.enumFrom],
    (C1_bestMatch_first_maximal exampleEnv exampleFrame 2 [] ⟨['C'], 3, 0, 2 / 25⟩
      exampleDetections).2.1 bestMatch_example_3⟩


section FrameIngestClaims

variable {K : Type} [LinearOrderedField K] [FloorRing K]

/-- C2 (as amended). A frame of width 0 or height 0 never changes the calibration state
(`cam_param_`, `configured_`), whatever the prior state. While the node is not configured
the frame is rejected: the state is unchanged and the detector is not invoked. Once the
node is configured the dimensions are not checked and the detector is invoked on the
frame. -/
theorem C2_degenerate_frame (env : Env K) (s : ARPublisher K) (msg : PointCloud2)
    (h : msg.width = 0 ∨ msg.height = 0) :
    ∃ s1 ev, getTransformationCallback env s msg = some (s1, ev) ∧
      s1.cam_param_ = s.cam_param_ ∧ s1.configured_ = s.configured_ ∧
      (s.configured_ = false → s1 = s ∧ detectorInvoked ev = false) ∧
      (s.configured_ = true → detectorInvoked ev = true) := by
  cases hc : s.configured_
  · refine ⟨s, [Event.rosError msg.width msg.height], ?_, rfl, hc, fun _ => ⟨rfl, rfl⟩, ?_⟩
    · simp [getTransformationCallback, hc, h]
    · intro hf; cases hf
  · refine ⟨(detectAndPublish env s msg).1, (detectAndPublish env s msg).2,
      callback_configured env s msg hc, (detectAndPublish_cam_param env s msg).1,
      (detectAndPublish_cam_param env s msg).2.trans hc, ?_,
      fun _ => detectAndPublish_invokes env s msg⟩
    intro hf; cases hf

/-- C2, witness: the unconfigured node fed a frame of width 0. -/
theorem C2_degenerate_frame_witness :
    (emptyFrame.width = 0 ∨ emptyFrame.height = 0) ∧
    ∃ s1 ev, getTransformationCallback exampleEnv freshNode emptyFrame = some (s1, ev) ∧
      s1.cam_param_ = freshNode.cam_param_ ∧ s1.configured_ = freshNode.configured_ ∧
      (freshNode.configured_ = false → s1 = freshNode ∧ detectorInvoked ev = false) ∧
      (freshNode.configured_ = true → detectorInvoked ev = true) :=
  ⟨Or.inl rfl, C2_degenerate_frame exampleEnv freshNode emptyFrame (Or.inl rfl)⟩

/-- C2, counterexample to the claim as stated: the configured node fed a frame of width 0
invokes the detector. -/
theorem C2_configured_node_runs_detector :
    (emptyFrame.width = 0 ∨ emptyFrame.height = 0) ∧ configuredNode.configured_ = true ∧
    ∃ r, getTransformationCallback exampleEnv configuredNode emptyFrame = some r ∧
      detectorInvoked r.2 = true :=
  ⟨Or.inl rfl, rfl, detectAndPublish exampleEnv configuredNode emptyFrame,
    callback_configured exampleEnv configuredNode emptyFrame rfl,
    detectAndPublish_invokes exampleEnv configuredNode emptyFrame⟩

/-- C6. After a first frame of non-zero width and height has configured the node, the
calibration fields keep the values derived from that frame across every later sequence of
frames, whatever their dimensions. -/
theorem C6_calibration_write_once (env : Env K) (s : ARPublisher K) (msg : PointCloud2)
    (objs : List (ObjectData_T K)) (frames : List PointCloud2)
    (hs : s.configured_ = false) (hw : msg.width ≠ 0) (hh : msg.height ≠ 0)
    (hobj : env.read_ObjData = some objs) :
    ∃ s1 s2, runFrames env s [msg] = some s1 ∧ s1.configured_ = true ∧
      s1.cam_param_ = deriveCamParam s.cam_param_ msg ∧
      runFrames env s (msg :: frames) = some s2 ∧ s2.configured_ = true ∧
      s2.cam_param_ = s1.cam_param_ ∧
      s2.cam_param_.xsize = toInt32 msg.width ∧ s2.cam_param_.ysize = toInt32 msg.height ∧
      s2.cam_param_.dist_factor =
        (((msg.width / 2 : Nat) : K), ((msg.height / 2 : Nat) : K), 0, 1) := by
  have hcb := callback_first_frame env s msg objs hs hw hh hobj
  generalize hs0 :
    ({ cam_param_ := deriveCamParam s.cam_param_ msg, configured_ := true, object := objs,
       arPoseMarkers_ := s.arPoseMarkers_ } : ARPublisher K) = s0 at hcb
  have hc := detectAndPublish_cam_param env s0 msg
  have hconf : (detectAndPublish env s0 msg).1.configured_ = true := by
    rw [hc.2, ← hs0]
  have hcam : (detectAndPublish env s0 msg).1.cam_param_ = deriveCamParam s.cam_param_ msg := by
    rw [hc.1, ← hs0]
  obtain ⟨s2, h2, h3, h4⟩ := runFrames_configured env frames _ hconf
  refine ⟨(detectAndPublish env s0 msg).1, s2, ?_, hconf, hcam, ?_, h3, h4, ?_, ?_, ?_⟩
  · simp [runFrames, hcb]
  · simp only [runFrames, hcb]
    exact h2
  · rw [h4, hcam]; rfl
  · rw [h4, hcam]; rfl
  · rw [h4, hcam]; rfl

/-- C6, witness: the fresh node configured by a 640 x 480 frame, then fed a 320 x 240
frame, a frame of width 0 and a 640 x 480 frame. -/
theorem C6_calibration_write_once_witness :
    freshNode.configured_ = false ∧ exampleFrame.width ≠ 0 ∧ exampleFrame.height ≠ 0 ∧
    exampleEnv.read_ObjData = some exampleCatalog ∧
    ∃ s1 s2, runFrames exampleEnv freshNode [exampleFrame] = some s1 ∧ s1.configured_ = true ∧
      s1.cam_param_ = deriveCamParam freshNode.cam_param_ exampleFrame ∧
      runFrames exampleEnv freshNode (exampleFrame :: [smallFrame, emptyFrame, exampleFrame])
        = some s2 ∧ s2.configured_ = true ∧
      s2.cam_param_ = s1.cam_param_ ∧
      s2.cam_param_.xsize = toInt32 exampleFrame.width ∧
      s2.cam_param_.ysize = toInt32 exampleFrame.height ∧
      s2.cam_param_.dist_factor =
        (((exampleFrame.width / 2 : Nat) : ℚ), ((exampleFrame.height / 2 : Nat) : ℚ), 0, 1) :=
  ⟨rfl, by decide, by decide, rfl,
    C6_calibration_write_once exampleEnv freshNode exampleFrame exampleCatalog
      [smallFrame, emptyFrame, exampleFrame] rfl (by decide) (by decide) rfl⟩

end FrameIngestClaims


theorem castInt_ten : castInt (10 : ℚ) = 10 :=
  castInt_of_nonneg _ _ (by norm_num) (by norm_num) (by norm_num)

theorem castInt_twenty : castInt (20 : ℚ) = 20 :=
  castInt_of_nonneg _ _ (by norm_num) (by norm_num) (by norm_num)

theorem markerTransform_example_A :
    markerTransform exampleEnv exampleFrame exampleDetections ⟨['A'], 1, 0, 2 / 25⟩ =
      ⟨⟨1 / 5, 1 / 5, 1⟩, ⟨0, 0, 1⟩, 0⟩ := by
  have hc : cornerOrder 2 = [2, 3, 0, 1] := by decide
  have hinfo : infoAt exampleDetections 1 = ⟨1, 2, 9 / 10, exampleVertex⟩ := by
    simp [infoAt, exampleDetections]
  unfold markerTransform
  rw [bestMatch_example_1, hinfo]
  simp [markerCloud, hc, vertexAt, exampleVertex, exampleEnv, castInt_ten, castInt_twenty]
  norm_num

theorem markerTransform_example_B :
    markerTransform exampleEnv exampleFrame exampleDetections ⟨['B'], 2, 0, 2 / 25⟩ =
      ⟨⟨1 / 10, 1 / 10, 1⟩, ⟨0, 0, 1⟩, 0⟩ := by
  have hc : cornerOrder 0 = [0, 1, 2, 3] := by decide
  have hinfo : infoAt exampleDetections 2 = ⟨2, 0, 1 / 2, exampleVertex⟩ := by
    simp [infoAt, exampleDetections]
  unfold markerTransform
  rw [bestMatch_example_2, hinfo]
  simp [markerCloud, hc, vertexAt, exampleVertex, exampleEnv, castInt_ten, castInt_twenty]
  norm_num

theorem expectedTelemetry_example_A :
    expectedTelemetry exampleEnv exampleFrame exampleDetections ⟨['A'], 1, 0, 2 / 25⟩ =
      some ['A', ';', '1', '2', '3', ';', '-', '5', '0', ';', '9', '0'] := by
  have hx := castInt_roundDouble_1236
  have hy := castInt_roundDouble_neg_0501
  have ht := castInt_roundDouble_quarter_turn
  have hm : bluetooth_msg ['A'] 123 (-50) 90 =
      ['A', ';', '1', '2', '3', ';', '-', '5', '0', ';', '9', '0'] := by decide
  have hany : exampleDetections.any (fun m => decide (m.id = 1)) = true := by
    simp [exampleDetections]
  unfold expectedTelemetry worldPose
  rw [markerTransform_example_A, if_pos hany]
  simp only [exampleEnv, bluetoothPose, telemetryText, quantize, Option.map_some', hx, hy, ht, hm]

theorem expectedTelemetry_example_B :
    expectedTelemetry exampleEnv exampleFrame exampleDetections ⟨['B'], 2, 0, 2 / 25⟩ =
      some ['B', ';', '1', '1', '3', ';', '-', '6', '0', ';', '9', '0'] := by
  have hx := castInt_roundDouble_1136
  have hy := castInt_roundDouble_neg_0601
  have ht := castInt_roundDouble_quarter_turn
  have hm : bluetooth_msg ['B'] 113 (-60) 90 =
      ['B', ';', '1', '1', '3', ';', '-', '6', '0', ';', '9', '0'] := by decide
  have hany : exampleDetections.any (fun m => decide (m.id = 2)) = true := by
    simp [exampleDetections]
  unfold expectedTelemetry worldPose
  rw [markerTransform_example_B, if_pos hany]
  simp only [exampleEnv, bluetoothPose, telemetryText, quantize, Option.map_some', hx, hy, ht, hm]

theorem expectedTelemetry_example_C :
    expectedTelemetry exampleEnv exampleFrame exampleDetections ⟨['C'], 3, 0, 2 / 25⟩ = none := by
  simp [expectedTelemetry, exampleDetections]

section TelemetryClaim

variable {K : Type} [LinearOrderedField K] [FloorRing K]

/-- C3. With the telemetry link enabled, the texts handed to `sendMessage` during one frame
are, in catalog order, one per catalog entry that has a detection with its id and whose
world-frame transform succeeds; an entry without detection or with a failed transform
contributes nothing and the later entries are still processed. This holds on a configured
node and on the frame that configures the node; a frame rejected for its dimensions sends
nothing. -/
theorem C3_telemetry_per_frame (env : Env K) (s : ARPublisher K) (msg : PointCloud2)
    (hbt : env.publishBluetooth_ = true) :
    (s.configured_ = true →
      ∃ s1 ev, getTransformationCallback env s msg = some (s1, ev) ∧
        sentMessages ev =
          s.object.filterMap (expectedTelemetry env msg (detectedMarkers env msg))) ∧
    (∀ objs, s.configured_ = false → msg.width ≠ 0 → msg.height ≠ 0 →
      env.read_ObjData = some objs →
      ∃ s1 ev, getTransformationCallback env s msg = some (s1, ev) ∧
        sentMessages ev =
          objs.filterMap (expectedTelemetry env msg (detectedMarkers env msg))) ∧
    (s.configured_ = false → msg.width = 0 ∨ msg.height = 0 →
      ∃ s1 ev, getTransformationCallback env s msg = some (s1, ev) ∧ sentMessages ev = []) := by
  refine ⟨fun hc => ?_, fun objs hs hw hh hobj => ?_, fun hs hz => ?_⟩
  · exact ⟨_, _, callback_configured env s msg hc, sentMessages_detectAndPublish env hbt s msg⟩
  · exact ⟨_, _, callback_first_frame env s msg objs hs hw hh hobj,
      sentMessages_detectAndPublish env hbt _ msg⟩
  · exact ⟨s, [Event.rosError msg.width msg.height], by
      simp [getTransformationCallback, hs, hz], rfl⟩

end TelemetryClaim

/-- C3, witness: detections of the catalog patterns `A` and `B`, both world lookups
succeeding, give exactly the two texts for `A` and `B`, in catalog order; the pattern `C`,
which has no detection, gives none. -/
theorem C3_telemetry_per_frame_witness :
    exampleEnv.publishBluetooth_ = true ∧
    detectedMarkers exampleEnv exampleFrame = exampleDetections ∧
    ∃ s1 ev, getTransformationCallback exampleEnv configuredNode exampleFrame = some (s1, ev) ∧
      sentMessages ev =
        [['A', ';', '1', '2', '3', ';', '-', '5', '0', ';', '9', '0'],
          ['B', ';', '1', '1', '3', ';', '-', '6', '0', ';', '9', '0']] := by
  obtain ⟨s1, ev, h1, h2⟩ :=
    (C3_telemetry_per_frame exampleEnv configuredNode exampleFrame rfl).1 rfl
  refine ⟨rfl, rfl, s1, ev, h1, ?_⟩
  rw [h2, show detectedMarkers exampleEnv exampleFrame = exampleDetections from rfl]
  simp [configuredNode, exampleCatalog, List.filterMap, expectedTelemetry_example_A,
    expectedTelemetry_example_B, expectedTelemetry_example_C]


section QuantizationClaim

variable {K : Type} [LinearOrderedField K] [FloorRing K]

end QuantizationClaim

theorem digitValue_digitChar (d : Nat) (h : d < 10) : digitValue (Nat.digitChar d) = some d := by
  interval_cases d <;> decide

theorem digitChar_ne_semicolon (d : Nat) (h : d < 10) : Nat.digitChar d ≠ ';' := by
  interval_cases d <;> decide

theorem digitChar_ne_minus (d : Nat) (h : d < 10) : Nat.digitChar d ≠ '-' := by
  interval_cases d <;> decide

theorem parseDigits_append (c : Char) :
    ∀ (a : List Char) (acc : Nat), parseDigits acc (a ++ [c]) =
      match parseDigits acc a with
      | some v => (digitValue c).map fun d => v * 10 + d
      | none => none := by
  intro a
  induction a with
  | nil =>
    intro acc
    simp only [List.nil_append, parseDigits]
    cases digitValue c <;> rfl
  | cons x a ih =>
    intro acc
    simp only [List.cons_append, parseDigits]
    cases digitValue x with
    | none => rfl
    | some d => exact ih _

theorem natDigits_spec :
    ∀ (fuel n : Nat), n < fuel →
      parseDigits 0 (natDigits fuel n) = some n ∧ natDigits fuel n ≠ [] ∧
      (∀ c ∈ natDigits fuel n, c ≠ ';' ∧ c ≠ '-') := by
  intro fuel
  induction fuel with
  | zero => intro n h; omega
  | succ fuel ih =>
    intro n h
    unfold natDigits
    by_cases h10 : n < 10
    · rw [if_pos h10]
      refine ⟨?_, by simp, ?_⟩
      · simp [parseDigits, digitValue_digitChar n h10]
      · intro c hc
        rw [List.mem_singleton] at hc
        subst hc
        exact ⟨digitChar_ne_semicolon n h10, digitChar_ne_minus n h10⟩
    · rw [if_neg h10]
      have hlt : n / 10 < fuel := by omega
      obtain ⟨hp, _, hc⟩ := ih (n / 10) hlt
      have hm : n % 10 < 10 := Nat.mod_lt _ (by decide)
      refine ⟨?_, by simp, ?_⟩
      · rw [parseDigits_append, hp, digitValue_digitChar _ hm]
        simp only [Option.map_some', Option.some.injEq]
        omega
      · intro c hcm
        rcases List.mem_append.mp hcm with h1 | h1
        · exact hc c h1
        · rw [List.mem_singleton] at h1
          subst h1
          exact ⟨digitChar_ne_semicolon _ hm, digitChar_ne_minus _ hm⟩

theorem semicolon_not_mem_lexical_cast (n : Int) : ';' ∉ lexical_cast n := by
  have h := (natDigits_spec (n.natAbs + 1) n.natAbs (Nat.lt_succ_self _)).2.2
  unfold lexical_cast
  intro hmem
  split_ifs at hmem
  · rcases List.mem_cons.mp hmem with h1 | h1
    · exact absurd h1 (by decide)
    · exact (h _ h1).1 rfl
  · exact (h _ hmem).1 rfl

theorem parseInt_lexical_cast (n : Int) : parseInt (lexical_cast n) = some n := by
  obtain ⟨hp, hne, hc⟩ := natDigits_spec (n.natAbs + 1) n.natAbs (Nat.lt_succ_self _)
  unfold lexical_cast
  by_cases hneg : n < 0
  · rw [if_pos hneg]
    simp only [parseInt, if_true, if_neg hne, hp, Option.map_some', Option.some.injEq]
    omega
  · rw [if_neg hneg]
    cases hds : natDigits (n.natAbs + 1) n.natAbs with
    | nil => exact absurd hds hne
    | cons c cs =>
      rw [hds] at hp hc
      have hcm : c ≠ '-' := (hc c (List.mem_cons_self _ _)).2
      simp only [parseInt, if_neg hcm, hp, Option.map_some', Option.some.injEq]
      omega

/-- C5 (as amended). For every pattern name without a `;` and every integer triple, the
text built is name;x;y;theta with decimal integers; splitting it at `;` gives exactly the 4
fields name, x, y, theta, and fields 2 to 4 parse as base-10 integers equal to x, y and
theta. -/
theorem C5_wire_format_roundtrip (name : CString) (x y theta : Int) (h : ';' ∉ name) :
    bluetooth_msg name x y theta =
      name ++ [';'] ++ lexical_cast x ++ [';'] ++ lexical_cast y ++ [';'] ++ lexical_cast theta ∧
    splitFields (bluetooth_msg name x y theta) =
      [name, lexical_cast x, lexical_cast y, lexical_cast theta] ∧
    (splitFields (bluetooth_msg name x y theta)).length = 4 ∧
    (splitFields (bluetooth_msg name x y theta)).tail.map parseInt =
      [some x, some y, some theta] := by
  have hsplit : splitFields (bluetooth_msg name x y theta) =
      [name, lexical_cast x, lexical_cast y, lexical_cast theta] := by
    have hi : bluetooth_msg name x y theta =
        [';'].intercalate [name, lexical_cast x, lexical_cast y, lexical_cast theta] := by
      simp [bluetooth_msg, List.intercalate, List.intersperse]
    rw [splitFields, hi]
    apply List.splitOn_intercalate
    · intro l hl
      simp only [List.mem_cons, List.mem_singleton, List.not_mem_nil, or_false] at hl
      rcases hl with rfl | rfl | rfl | rfl
      · exact h
      · exact semicolon_not_mem_lexical_cast x
      · exact semicolon_not_mem_lexical_cast y
      · exact semicolon_not_mem_lexical_cast theta
    · simp
  refine ⟨rfl, hsplit, by rw [hsplit]; rfl, ?_⟩
  rw [hsplit]
  simp [parseInt_lexical_cast]

/-- C5, witness: the text for pattern `A` at (123, -50, 90). -/
theorem C5_wire_format_roundtrip_witness :
    ';' ∉ ['A'] ∧
    bluetooth_msg ['A'] 123 (-50) 90 =
      ['A', ';', '1', '2', '3', ';', '-', '5', '0', ';', '9', '0'] ∧
    splitFields (bluetooth_msg ['A'] 123 (-50) 90) =
      [['A'], lexical_cast 123, lexical_cast (-50), lexical_cast 90] ∧
    (splitFields (bluetooth_msg ['A'] 123 (-50) 90)).tail.map parseInt =
      [some 123, some (-50), some 90] :=
  ⟨by decide, by decide,
    (C5_wire_format_roundtrip ['A'] 123 (-50) 90 (by decide)).2.1,
    (C5_wire_format_roundtrip ['A'] 123 (-50) 90 (by decide)).2.2.2⟩

/-- C5, counterexample to the claim as stated: for the pattern name `a;b` the text splits
into 5 fields, and its second field is not an integer. -/
theorem C5_name_with_separator :
    bluetooth_msg ['a', ';', 'b'] 1 2 3 = ['a', ';', 'b', ';', '1', ';', '2', ';', '3'] ∧
    (splitFields (bluetooth_msg ['a', ';', 'b'] 1 2 3)).length = 5 ∧
    (splitFields (bluetooth_msg ['a', ';', 'b'] 1 2 3)).length ≠ 4 ∧
    (splitFields (bluetooth_msg ['a', ';', 'b'] 1 2 3)).tail.map parseInt ≠
      [some 1, some 2, some 3] :=
  ⟨by decide, by decide, by decide, by decide⟩


theorem toInt32_of_fits (n : Nat) (h : (n : Int) ≤ INT_MAX) : toInt32 n = (n : Int) := by
  unfold toInt32
  unfold INT_MAX at h
  omega

theorem searchAgain_iff (found_devices : List (CString × CString)) (user_choice : Int)
    (h : (found_devices.length : Int) ≤ INT_MAX) :
    searchAgain user_choice found_devices = true ↔
      (user_choice ≤ 0 ∨ user_choice > (found_devices.length : Int)) := by
  simp [searchAgain, toInt32_of_fits _ h]

theorem selectDevice_bounds :
    ∀ rounds : List (List (CString × CString) × Int),
      (∀ r ∈ rounds, (r.1.length : Int) ≤ INT_MAX) →
      ∀ found_devices user_choice, selectDevice rounds = some (found_devices, user_choice) →
        1 ≤ user_choice ∧ user_choice ≤ (found_devices.length : Int) := by
  intro rounds
  induction rounds with
  | nil => intro _ f c h; simp [selectDevice] at h
  | cons r rest ih =>
    intro hfit f c h
    obtain ⟨f0, c0⟩ := r
    simp only [selectDevice] at h
    by_cases hs : searchAgain c0 f0 = true
    · rw [if_pos hs] at h
      exact ih (fun r hr => hfit r (List.mem_cons_of_mem _ hr)) f c h
    · rw [if_neg hs] at h
      simp only [Option.some.injEq, Prod.mk.injEq] at h
      obtain ⟨rfl, rfl⟩ := h
      have := (searchAgain_iff f0 c0 (hfit (f0, c0) (List.mem_cons_self _ _))).not.mp hs
      omega

theorem connectTarget_in_bounds (found_devices : List (CString × CString)) (user_choice : Int)
    (h1 : 1 ≤ user_choice) (h2 : user_choice ≤ (found_devices.length : Int)) :
    ∃ d, connectTarget found_devices user_choice = some d ∧
      found_devices[(user_choice - 1).toNat]? = some d := by
  have hlt : (user_choice - 1).toNat < found_devices.length := by omega
  refine ⟨found_devices[(user_choice - 1).toNat], ?_, List.getElem?_eq_getElem hlt⟩
  unfold connectTarget
  rw [if_pos (by omega)]
  exact List.getElem?_eq_getElem hlt

/-- C7. For rounds of discovery whose device counts fit in an `int`: a round with n devices
and parsed choice c goes back to scanning when c <= 0 or c > n and leaves the loop exactly
when 1 <= c <= n, connecting to device c - 1, which is inside the discovered list; a round
with no device always scans again; whenever the loop is left, the choice satisfies
1 <= c <= n and the connect target exists. -/
theorem C7_device_selection (rounds : List (List (CString × CString) × Int))
    (hfit : ∀ r ∈ rounds, (r.1.length : Int) ≤ INT_MAX) :
    (∀ found_devices user_choice rest, rounds = (found_devices, user_choice) :: rest →
      ((user_choice ≤ 0 ∨ user_choice > (found_devices.length : Int)) →
        searchAgain user_choice found_devices = true ∧
        selectDevice rounds = selectDevice rest) ∧
      ((1 ≤ user_choice ∧ user_choice ≤ (found_devices.length : Int)) →
        searchAgain user_choice found_devices = false ∧
        selectDevice rounds = some (found_devices, user_choice) ∧
        ∃ d, connectTarget found_devices user_choice = some d ∧
          found_devices[(user_choice - 1).toNat]? = some d) ∧
      (found_devices = [] → selectDevice rounds = selectDevice rest)) ∧
    (∀ found_devices user_choice, selectDevice rounds = some (found_devices, user_choice) →
      1 ≤ user_choice ∧ user_choice ≤ (found_devices.length : Int) ∧
      ∃ d, connectTarget found_devices user_choice = some d ∧
        found_devices[(user_choice - 1).toNat]? = some d) := by
  refine ⟨?_, ?_⟩
  · intro f c rest hr
    have hf : (f.length : Int) ≤ INT_MAX := hfit (f, c) (by rw [hr]; exact List.mem_cons_self _ _)
    have hiff := searchAgain_iff f c hf
    refine ⟨fun h => ?_, fun h => ?_, fun h => ?_⟩
    · have hs := hiff.mpr h
      exact ⟨hs, by rw [hr]; simp [selectDevice, hs]⟩
    · have hs : searchAgain c f = false := by
        cases hb : searchAgain c f
        · rfl
        · have := hiff.mp hb
          omega
      exact ⟨hs, by rw [hr]; simp [selectDevice, hs], connectTarget_in_bounds f c h.1 h.2⟩
    · have hs : searchAgain c f = true := by
        apply hiff.mpr
        rw [h]
        simp only [List.length_nil, Nat.cast_zero]
        omega
      rw [hr]; simp [selectDevice, hs]
  · intro f c h
    have hb := selectDevice_bounds rounds hfit f c h
    exact ⟨hb.1, hb.2, connectTarget_in_bounds f c hb.1 hb.2⟩

/-- C7, witness: an empty scan answered with 1 and a scan answered with 0 both scan again;
the answer 2 on two devices leaves the loop and connects to the second device. -/
theorem C7_device_selection_witness :
    (∀ r ∈ exampleRounds, (r.1.length : Int) ≤ INT_MAX) ∧
    selectDevice exampleRounds = some (exampleDevices, 2) ∧
    connectTarget exampleDevices 2 = some (['P', 'C'], ['0', '0', ':', '1', '7']) ∧
    (1 : Int) ≤ 2 ∧ (2 : Int) ≤ (exampleDevices.length : Int) := by
  have hfit : ∀ r ∈ exampleRounds, (r.1.length : Int) ≤ INT_MAX := by decide
  have hsel : selectDevice exampleRounds = some (exampleDevices, 2) := by decide
  have h := (C7_device_selection exampleRounds hfit).2 exampleDevices 2 hsel
  exact ⟨hfit, hsel, by decide, h.1, h.2.1⟩


/-- C8. Over the reals, with `sqrt` the real square root: for every marker transform whose
orientation (x, y, z, w) has non-zero magnitude m, the orientation of the pose handed to
the world-frame transform is (x/m, y/m, z/m, w/m), and its magnitude is 1. -/
theorem C8_orientation_normalized (msg : PointCloud2) (t : Transform ℝ)
    (h : magnitude Real.sqrt (rawOrientation t) ≠ 0) :
    (bluetoothPose Real.sqrt msg t).orientation =
      ⟨t.rotationAxis.x / Real.sqrt (t.rotationAxis.x ^ 2 + t.rotationAxis.y ^ 2 +
          t.rotationAxis.z ^ 2 + t.rotationW ^ 2),
        t.rotationAxis.y / Real.sqrt (t.rotationAxis.x ^ 2 + t.rotationAxis.y ^ 2 +
          t.rotationAxis.z ^ 2 + t.rotationW ^ 2),
        t.rotationAxis.z / Real.sqrt (t.rotationAxis.x ^ 2 + t.rotationAxis.y ^ 2 +
          t.rotationAxis.z ^ 2 + t.rotationW ^ 2),
        t.rotationW / Real.sqrt (t.rotationAxis.x ^ 2 + t.rotationAxis.y ^ 2 +
          t.rotationAxis.z ^ 2 + t.rotationW ^ 2)⟩ ∧
    magnitude Real.sqrt (bluetoothPose Real.sqrt msg t).orientation = 1 := by
  refine ⟨rfl, ?_⟩
  simp only [bluetoothPose, normalizeQuaternion, magnitude, rawOrientation] at h ⊢
  set S := t.rotationAxis.x ^ 2 + t.rotationAxis.y ^ 2 + t.rotationAxis.z ^ 2 + t.rotationW ^ 2
    with hS
  have hSpos : 0 < S := by
    by_contra hn
    exact h (Real.sqrt_eq_zero_of_nonpos (not_lt.mp hn))
  have hsq : Real.sqrt S ^ 2 = S := Real.sq_sqrt hSpos.le
  have : (t.rotationAxis.x / Real.sqrt S) ^ 2 + (t.rotationAxis.y / Real.sqrt S) ^ 2 +
      (t.rotationAxis.z / Real.sqrt S) ^ 2 + (t.rotationW / Real.sqrt S) ^ 2 = 1 := by
    simp only [div_pow, hsq]
    rw [← add_div, ← add_div, ← add_div, ← hS]
    exact div_self hSpos.ne.symm
  rw [this, Real.sqrt_one]

/-- C8, witness: rotation axis (0, 0, 1) with w = 1, of magnitude sqrt 2. -/
theorem C8_orientation_normalized_witness :
    magnitude Real.sqrt (rawOrientation (⟨⟨0, 0, 0⟩, ⟨0, 0, 1⟩, 1⟩ : Transform ℝ)) ≠ 0 ∧
    magnitude Real.sqrt
      (bluetoothPose Real.sqrt exampleFrame (⟨⟨0, 0, 0⟩, ⟨0, 0, 1⟩, 1⟩ : Transform ℝ)).orientation
      = 1 := by
  have h : magnitude Real.sqrt (rawOrientation (⟨⟨0, 0, 0⟩, ⟨0, 0, 1⟩, 1⟩ : Transform ℝ)) ≠ 0 := by
    simp only [magnitude, rawOrientation]
    exact (Real.sqrt_pos.mpr (by norm_num)).ne.symm
  exact ⟨h, (C8_orientation_normalized exampleFrame _ h).2⟩


section CornerClaim

variable {K : Type} [LinearOrderedField K] [FloorRing K]

/-- C9. For a detection with four vertices and a rotation offset `d` in 0..3: the four
vertex indexes lie in 0..3, are pairwise distinct, and the k-th one is (k - d) mod 4; every
vertex read is inside the array; and the cloud `marker` built at lines 290-294 has four
points, the k-th being the cloud sample at the pixel of vertex (k - d) mod 4, so that it
holds the samples of the four detected corners, each exactly once. -/
theorem C9_corner_order_rotation (env : Env K) (msg : PointCloud2) (info : ARMarkerInfo K)
    (h0 : 0 ≤ info.dir) (h3 : info.dir ≤ 3) (hlen : info.vertex.length = 4) :
    (∀ i ∈ cornerOrder info.dir, 0 ≤ i ∧ i ≤ 3) ∧
    (cornerOrder info.dir).Nodup ∧
    (∀ k : Nat, k < 4 → (cornerOrder info.dir)[k]? = some (((k : Int) - info.dir) % 4)) ∧
    ((cornerOrder info.dir).map Int.toNat).Perm [0, 1, 2, 3] ∧
    (∀ i ∈ cornerOrder info.dir, info.vertex[i.toNat]? = some (vertexAt info.vertex i)) ∧
    ((cornerOrder info.dir).map (vertexAt info.vertex)).Perm info.vertex ∧
    (markerCloud env msg info).length = 4 ∧
    (∀ k : Nat, k < 4 → ∃ v, info.vertex[(((k : Int) - info.dir) % 4).toNat]? = some v ∧
      (markerCloud env msg info)[k]? = some (env.cloudAt msg (castInt v.1) (castInt v.2))) ∧
    (markerCloud env msg info).Perm
      (info.vertex.map fun v => env.cloudAt msg (castInt v.1) (castInt v.2)) := by
  obtain ⟨id, d, cf, vertex⟩ := info
  simp only at h0 h3 hlen ⊢
  have hd : d = 0 ∨ d = 1 ∨ d = 2 ∨ d = 3 := by omega
  refine ⟨?_, ?_, ?_, ?_, ?_⟩
  · rcases hd with rfl | rfl | rfl | rfl <;> decide
  · rcases hd with rfl | rfl | rfl | rfl <;> decide
  · intro k hk
    rcases hd with rfl | rfl | rfl | rfl <;> interval_cases k <;> decide
  · rcases hd with rfl | rfl | rfl | rfl <;> decide
  · match vertex, hlen with
    | [a, b, c, e], _ =>
      unfold markerCloud
      rcases hd with rfl | rfl | rfl | rfl
      · rw [show cornerOrder 0 = [0, 1, 2, 3] by decide]
        refine ⟨by simp [vertexAt], by simp [vertexAt], rfl, ?_, by simp [vertexAt]⟩
        intro k hk
        interval_cases k <;> simp [vertexAt]
      · rw [show cornerOrder 1 = [3, 0, 1, 2] by decide]
        refine ⟨by simp [vertexAt], ?_, rfl, ?_, ?_⟩
        · simpa [vertexAt] using @List.perm_append_comm _ [e] [a, b, c]
        · intro k hk
          interval_cases k <;> simp [vertexAt]
        · simpa [vertexAt] using @List.perm_append_comm _
            [env.cloudAt msg (castInt e.1) (castInt e.2)]
            [env.cloudAt msg (castInt a.1) (castInt a.2),
              env.cloudAt msg (castInt b.1) (castInt b.2),
              env.cloudAt msg (castInt c.1) (castInt c.2)]
      · rw [show cornerOrder 2 = [2, 3, 0, 1] by decide]
        refine ⟨by simp [vertexAt], ?_, rfl, ?_, ?_⟩
        · simpa [vertexAt] using @List.perm_append_comm _ [c, e] [a, b]
        · intro k hk
          interval_cases k <;> simp [vertexAt]
        · simpa [vertexAt] using @List.perm_append_comm _
            [env.cloudAt msg (castInt c.1) (castInt c.2),
              env.cloudAt msg (castInt e.1) (castInt e.2)]
            [env.cloudAt msg (castInt a.1) (castInt a.2),
              env.cloudAt msg (castInt b.1) (castInt b.2)]
      · rw [show cornerOrder 3 = [1, 2, 3, 0] by decide]
        refine ⟨by simp [vertexAt], ?_, rfl, ?_, ?_⟩
        · simpa [vertexAt] using @List.perm_append_comm _ [b, c, e] [a]
        · intro k hk
          interval_cases k <;> simp [vertexAt]
        · simpa [vertexAt] using @List.perm_append_comm _
            [env.cloudAt msg (castInt b.1) (castInt b.2),
              env.cloudAt msg (castInt c.1) (castInt c.2),
              env.cloudAt msg (castInt e.1) (castInt e.2)]
            [env.cloudAt msg (castInt a.1) (castInt a.2)]

end CornerClaim

/-- C9, witness: the detection of offset 2 on a square outline reads the vertexes 2, 3, 0,
1, and its cloud `marker` holds the samples at (20, 20), (10, 20), (10, 10), (20, 10) in
that order. -/
theorem C9_corner_order_rotation_witness :
    (0 : Int) ≤ (⟨1, 2, 9 / 10, exampleVertex⟩ : ARMarkerInfo ℚ).dir ∧
    (⟨1, 2, 9 / 10, exampleVertex⟩ : ARMarkerInfo ℚ).dir ≤ 3 ∧
    (⟨1, 2, 9 / 10, exampleVertex⟩ : ARMarkerInfo ℚ).vertex.length = 4 ∧
    cornerOrder 2 = [2, 3, 0, 1] ∧
    markerCloud exampleEnv exampleFrame ⟨1, 2, 9 / 10, exampleVertex⟩ =
      [⟨1 / 5, 1 / 5, 1⟩, ⟨1 / 10, 1 / 5, 1⟩, ⟨1 / 10, 1 / 10, 1⟩, ⟨1 / 5, 1 / 10, 1⟩] ∧
    (markerCloud exampleEnv exampleFrame ⟨1, 2, 9 / 10, exampleVertex⟩).Perm
      (exampleVertex.map fun v => exampleEnv.cloudAt exampleFrame (castInt v.1) (castInt v.2)) := by
  refine ⟨by decide, by decide, rfl, by decide, ?_,
    (C9_corner_order_rotation exampleEnv exampleFrame ⟨1, 2, 9 / 10, exampleVertex⟩
      (by decide) (by decide) rfl).2.2.2.2.2.2.2.2⟩
  have hc : cornerOrder 2 = [2, 3, 0, 1] := by decide
  simp [markerCloud, hc, vertexAt, exampleVertex, exampleEnv, castInt_ten, castInt_twenty]
  norm_num


/-- C10, the code at the failing input. On the detections (id 1, 0.3), (id 1, 0.9),
(id 2, 0.5) the detection selected for pattern `A` (id 1) is index 1 with confidence 0.9
and the one selected for pattern `B` (id 2) is index 2 with confidence 0.5, but the marker
published for each of them records 0.3, the confidence of detection 0. -/
theorem C10_confidence_of_first_detection :
    bestMatch 1 exampleDetections = 1 ∧
    (infoAt exampleDetections (bestMatch 1 exampleDetections)).cf = 9 / 10 ∧
    (processObject exampleEnv exampleFrame exampleDetections 0 ⟨['A'], 1, 0, 2 / 25⟩ []).2.1.map
      (fun m => m.confidence) = [3 / 10] ∧
    bestMatch 2 exampleDetections = 2 ∧
    (infoAt exampleDetections (bestMatch 2 exampleDetections)).cf = 1 / 2 ∧
    (processObject exampleEnv exampleFrame exampleDetections 1 ⟨['B'], 2, 0, 2 / 25⟩ []).2.1.map
      (fun m => m.confidence) = [3 / 10] := by
  have h0 : (infoAt exampleDetections 0).cf = 3 / 10 := by simp [infoAt, exampleDetections]
  refine ⟨bestMatch_example_1, ?_, ?_, bestMatch_example_2, ?_, ?_⟩
  · rw [bestMatch_example_1]; simp [infoAt, exampleDetections]
  · unfold processObject
    rw [bestMatch_example_1, if_neg (by decide)]
    simp [exampleEnv, arPoseMarker, h0]
  · rw [bestMatch_example_2]; simp [infoAt, exampleDetections]
  · unfold processObject
    rw [bestMatch_example_2, if_neg (by decide)]
    simp [exampleEnv, arPoseMarker, h0]

end ar_pose
